import Mathlib

/-!
Verification development for the `sshpod` proxy tool.

The Rust sources are shallowly embedded: remote strings are lists of
characters (`Str`), fallible operations return `Except`/`Option`, and
external effects (kubectl subprocess calls, the tokio TCP machinery,
the xz/flate2 compression libraries) are modelled as oracle fields of
explicit environment structures, with the call trace recorded as a
list of events where a claim is about which effects happen.

Definitions come first, then the theorems about them.
-/

namespace Sshpod

instance {ε α : Type _} [DecidableEq ε] [DecidableEq α] : DecidableEq (Except ε α) := by
  intro x y
  cases x <;> cases y
  case error.error a b =>
    exact if h : a = b then .isTrue (by rw [h]) else .isFalse (by simp [h])
  case error.ok a b => exact .isFalse (by simp)
  case ok.error a b => exact .isFalse (by simp)
  case ok.ok a b =>
    exact if h : a = b then .isTrue (by rw [h]) else .isFalse (by simp [h])

/-- Remote/hostname strings, modelled as lists of characters. -/
abbrev Str := List Char

/-- Convert a Lean string literal to the character-list representation. -/
def str (s : String) : Str := s.toList

/-- Model of Rust's `strip_prefix` on strings: strip an initial segment,
`none` when it does not match. -/
def stripPre : Str → Str → Option Str
  | [], s => some s
  | _ :: _, [] => none
  | p :: ps, c :: cs => if p = c then stripPre ps cs else none

/-- Model of Rust's `strip_suffix`, via `stripPre` on the reversed strings. -/
def stripSuf (sfx s : Str) : Option Str :=
  (stripPre sfx.reverse s.reverse).map List.reverse

/-- Model of `trim_end_matches('.')`: drop every trailing dot. -/
def trimEndDots (s : Str) : Str :=
  (s.reverse.dropWhile (fun c => c = '.')).reverse

/-- Model of `split('.')` collected into a vector (`src/hostspec.rs` line 34).
Splitting the empty string yields one empty token, as in Rust. -/
def splitDot : Str → List Str
  | [] => [[]]
  | c :: rest =>
    if c = '.' then [] :: splitDot rest
    else
      match splitDot rest with
      | [] => [[c]]
      | t :: ts => (c :: t) :: ts

/-- Target kind of a hostname (`src/hostspec.rs` lines 11-16). -/
inductive Target
  | Pod (name : Str)
  | Deployment (name : Str)
  | Job (name : Str)
deriving DecidableEq, Repr

/-- Parsed hostname (`src/hostspec.rs` lines 3-9). The Rust field
`namespace` is called `ns` here because `namespace` is a Lean keyword. -/
structure HostSpec where
  target : Target
  ns : Option Str
  context : Str
  container : Option Str
deriving DecidableEq, Repr

/-- Parser errors (`src/hostspec.rs` lines 18-26). -/
inductive HostSpecError
  | MissingSuffix
  | InvalidFormat
deriving DecidableEq, Repr

def containerPre : Str := ['c', 'o', 'n', 't', 'a', 'i', 'n', 'e', 'r', '-', '-']
def namespacePre : Str := ['n', 'a', 'm', 'e', 's', 'p', 'a', 'c', 'e', '-', '-']
def contextPre : Str := ['c', 'o', 'n', 't', 'e', 'x', 't', '-', '-']
def podPre : Str := ['p', 'o', 'd', '-', '-']
def deployPre : Str := ['d', 'e', 'p', 'l', 'o', 'y', 'm', 'e', 'n', 't', '-', '-']
def jobPre : Str := ['j', 'o', 'b', '-', '-']
/-- The required hostname suffix `.sshpod`. -/
def sshpodSuf : Str := ['.', 's', 's', 'h', 'p', 'o', 'd']

/-- Embedding of `parse_target` (`src/hostspec.rs` lines 81-104):
recognise the `pod--`/`deployment--`/`job--` prefixes; any other
non-empty token is interpreted as a bare pod name. -/
def parseTarget (token : Str) : Except HostSpecError Target :=
  if token = [] then .error .InvalidFormat
  else
    match stripPre podPre token with
    | some rest =>
      if rest = [] then .error .InvalidFormat else .ok (.Pod rest)
    | none =>
      match stripPre deployPre token with
      | some rest =>
        if rest = [] then .error .InvalidFormat else .ok (.Deployment rest)
      | none =>
        match stripPre jobPre token with
        | some rest =>
          if rest = [] then .error .InvalidFormat else .ok (.Job rest)
        | none => .ok (.Pod token)

/-- Embedding of `parse`, lines 60-78: consume the context token at
`idx`, require it to be the last token, strip `context--`, reject an
empty context, and assemble the `HostSpec` with the parsed target. -/
def parseFinish (parts : List Str) (idx : Nat) (container : Option Str)
    (targetToken : Str) (nsVal : Option Str) : Except HostSpecError HostSpec :=
  match parts.get? idx with
  | none => .error .InvalidFormat
  | some contextToken =>
    if idx + 1 ≠ parts.length then .error .InvalidFormat
    else
      match stripPre contextPre contextToken with
      | none => .error .InvalidFormat
      | some context =>
        if context = [] then .error .InvalidFormat
        else
          match parseTarget targetToken with
          | .error e => .error e
          | .ok t =>
            .ok { target := t, ns := nsVal, context := context, container := container }

/-- Embedding of `parse`, lines 49-59: an optional `namespace--` token
directly after the target token. -/
def parseAfterTarget (parts : List Str) (idx : Nat) (container : Option Str)
    (targetToken : Str) : Except HostSpecError HostSpec :=
  match parts.get? idx with
  | some nsToken =>
    match stripPre namespacePre nsToken with
    | some rest =>
      if rest = [] then .error .InvalidFormat
      else parseFinish parts (idx + 1) container targetToken (some rest)
    | none => parseFinish parts idx container targetToken none
  | none => parseFinish parts idx container targetToken none

/-- Embedding of `parse`, lines 35-48: an optional leading `container--`
token, then the mandatory target token. -/
def parseTokens (parts : List Str) : Except HostSpecError HostSpec :=
  match parts.get? 0 with
  | some token =>
    match stripPre containerPre token with
    | some rest =>
      if rest = [] then .error .InvalidFormat
      else
        match parts.get? 1 with
        | none => .error .InvalidFormat
        | some targetToken => parseAfterTarget parts 2 (some rest) targetToken
    | none => parseAfterTarget parts 1 none token
  | none => .error .InvalidFormat

/-- Embedding of `parse` (`src/hostspec.rs` lines 28-79): trim trailing
dots, require the `.sshpod` suffix, split on dots and run the positional
token walk. -/
def parse (host : Str) : Except HostSpecError HostSpec :=
  match stripSuf sshpodSuf (trimEndDots host) with
  | none => .error .MissingSuffix
  | some withoutSuffix => parseTokens (splitDot withoutSuffix)

/-- Hostname in the canonical token order accepted by the parser:
`pod--P.namespace--N.context--C.sshpod`. -/
def canonicalHost (p n c : Str) : Str :=
  ((podPre ++ p) ++ '.' :: ((namespacePre ++ n) ++ '.' :: (contextPre ++ c))) ++ sshpodSuf

/-- The same hostname with the two non-target tokens swapped:
`pod--P.context--C.namespace--N.sshpod`. -/
def swappedHost (p n c : Str) : Str :=
  ((podPre ++ p) ++ '.' :: ((contextPre ++ c) ++ '.' :: (namespacePre ++ n))) ++ sshpodSuf

/-- Rendering of an `anyhow` context chain: `.context(msg)` renders as
`msg: cause` when the chain is walked. -/
def chainErr (ctx e : Str) : Str := ctx ++ str ": " ++ e

/-- ASCII whitespace, for the model of Rust's `str::trim`. -/
def isWsChar (c : Char) : Bool := c = ' ' || c = '\t' || c = '\n' || c = '\r'

/-- Model of `str::trim`: drop trailing whitespace (via reverse), then
leading whitespace. -/
def trimWs (s : Str) : Str :=
  ((s.reverse.dropWhile isWsChar).reverse).dropWhile isWsChar

/-- Oracle outcomes for the bridge tail of the proxy pipeline
(`src/proxy.rs` lines 117-133): the TCP connect, the stdio pump, and the
port-forward `stop()` call. -/
structure BridgeEnv where
  /-- Outcome of `TcpStream::connect(("127.0.0.1", local_port))`. -/
  connect : Except Str Unit
  /-- Outcome of `proxy_io::pump(stream)`. -/
  pump : Except Str Unit
  /-- Outcome of `forward.stop()`. -/
  stop : Except Str Unit

/-- Result of the bridge tail together with whether `stop()` was invoked
on the port-forward handle. -/
structure BridgeOutcome where
  result : Except Str Unit
  /-- Whether `stop()` was invoked on the port-forward handle. -/
  stopCalled : Bool
deriving DecidableEq

/-- Embedding of `src/proxy.rs` lines 124-133: on a connect failure the
`?` operator returns early, before `forward.stop()` is ever reached;
otherwise both `pump` and `stop` run, and the pump error (if any) is
surfaced first. -/
def bridgeAfterForward (env : BridgeEnv) : BridgeOutcome :=
  match env.connect with
  | .error e =>
    { result := .error (chainErr (str "failed to connect to forwarded sshd port") e)
      stopCalled := false }
  | .ok _ =>
    let pumpResult := env.pump
    let stopResult := env.stop
    match pumpResult with
    | .error e => { result := .error e, stopCalled := true }
    | .ok _ => { result := stopResult, stopCalled := true }

/-- Embedding of `detect_remote_arch` (`src/bundle.rs` lines 14-31), as
a function of the `exec_capture` result of running `uname -m` in the
container. -/
def detect_remote_arch (unameResult : Except Str Str) : Except Str Str :=
  match unameResult with
  | .error e => .error (chainErr (str "failed to detect remote arch via uname -m") e)
  | .ok machine =>
    let t := trimWs machine
    if t = str "x86_64" ∨ t = str "amd64" then .ok (str "linux/amd64")
    else if t = str "aarch64" ∨ t = str "arm64" then .ok (str "linux/arm64")
    else .error (str "unsupported remote architecture: " ++ t)

/-- Payload bytes. -/
abbrev Bytes := List Nat

/-- Externally observable actions of `ensure_bundle`: the two
speculative `cat` reads, a local bundle-file read, and the three
`exec_with_input` installation attempts. -/
inductive REvent
  | catVersion
  | catArch
  | readLocalBundle
  | execXz
  | execGz
  | execPlain
deriving DecidableEq, Repr

/-- Oracle outcomes for `ensure_bundle` (`src/bundle.rs` lines 33-135).
The constant `BUNDLE_VERSION` is `CARGO_PKG_VERSION ++ "+sshd1"`, a
compile-time value taken from the crate manifest (outside `src/`), so it
is passed to the model as an explicit parameter `ver`. -/
structure BundleEnv where
  /-- Outcome of `exec_capture_optional` on `cat BASE/bundle/VERSION`:
  outer error = spawn failure, `none` = non-zero remote exit. -/
  versionRead : Except Str (Option Str)
  /-- Outcome of `exec_capture_optional` on `cat BASE/bundle/ARCH`. -/
  archRead : Except Str (Option Str)
  /-- The embedded `amd64` payload (`embedded::get_bundle`). -/
  amdBlob : Bytes
  /-- The embedded `arm64` payload. -/
  armBlob : Bytes
  /-- Outcome of `locate_bundle` plus `tokio::fs::read` of a sibling
  bundle file. -/
  localRead : Except Str Bytes
  /-- Outcome of `decompress_xz` (the xz2 library). -/
  xzDec : Bytes → Except Str Bytes
  /-- Outcome of `GzEncoder::write_all` plus `finish` (the flate2
  library); errors are modelled already carrying their context strings. -/
  gzEnc : Bytes → Except Str Bytes
  /-- Outcome of `exec_with_input` running the `xz -dc` install script. -/
  xzExec : Except Str Str
  /-- Outcome of `exec_with_input` running the `gzip -dc` install script. -/
  gzExec : Except Str Str
  /-- Outcome of `exec_with_input` running the `cat` install script. -/
  plainExec : Except Str Str

/-- Embedding of `embedded::get_bundle` (`src/embedded.rs`): an embedded
payload exists exactly for the two supported architectures. -/
def get_bundle (env : BundleEnv) (arch : Str) : Option Bytes :=
  if arch = str "linux/amd64" then some env.amdBlob
  else if arch = str "linux/arm64" then some env.armBlob
  else none

/-- The final error of `ensure_bundle` when all three installation
strategies fail (`src/bundle.rs` lines 123-128): the `with_context`
message naming the xz and gzip errors, chained onto the plain attempt's
error. -/
def installFailMsg (base e1 e2 e3 : Str) : Str :=
  chainErr (str "failed to install bundle into " ++ base ++ str " (xz error: " ++ e1
    ++ str "; gzip error: " ++ e2 ++ str ")") e3

/-- Embedding of `ensure_bundle` (`src/bundle.rs` lines 33-135),
returning its result together with the trace of external actions. -/
def ensure_bundle (env : BundleEnv) (ver base arch : Str) :
    Except Str Unit × List REvent :=
  match env.versionRead with
  | .error e => (.error e, [.catVersion])
  | .ok remoteVersion =>
    match env.archRead with
    | .error e => (.error e, [.catVersion, .catArch])
    | .ok remoteArch =>
      if remoteVersion = some ver ∧ remoteArch = some arch then
        (.ok (), [.catVersion, .catArch])
      else
        match (match get_bundle env arch with
               | some d => (Except.ok d, ([] : List REvent))
               | none =>
                 match env.localRead with
                 | .ok d => (Except.ok d, [REvent.readLocalBundle])
                 | .error e => (Except.error e, [REvent.readLocalBundle])) with
        | (.error e, evs) => (.error e, [.catVersion, .catArch] ++ evs)
        | (.ok bundleData, evs) =>
          let evs1 := [REvent.catVersion, REvent.catArch] ++ evs ++ [REvent.execXz]
          match env.xzExec with
          | .ok _ => (.ok (), evs1)
          | .error e1 =>
            match env.xzDec bundleData with
            | .error e =>
              (.error (chainErr (str "failed to decompress sshd xz locally") e), evs1)
            | .ok sshdData =>
              match env.gzEnc sshdData with
              | .error e => (.error e, evs1)
              | .ok _gzData =>
                let evs2 := evs1 ++ [REvent.execGz]
                match env.gzExec with
                | .ok _ => (.ok (), evs2)
                | .error e2 =>
                  let evs3 := evs2 ++ [REvent.execPlain]
                  match env.plainExec with
                  | .ok _ => (.ok (), evs3)
                  | .error e3 => (.error (installFailMsg base e1 e2 e3), evs3)

/-- An environment whose speculative reads match (for the C5 witness). -/
def bundleEnvFast : BundleEnv where
  versionRead := .ok (some (str "0.1.0+sshd1"))
  archRead := .ok (some (str "linux/amd64"))
  amdBlob := []
  armBlob := []
  localRead := .error []
  xzDec := fun _ => .ok []
  gzEnc := fun _ => .ok []
  xzExec := .ok []
  gzExec := .ok []
  plainExec := .ok []

/-- An environment where the xz strategy fails remotely and the local xz
decompression of the payload also fails (for the C6 counterexample). -/
def bundleEnvBadXz : BundleEnv where
  versionRead := .ok none
  archRead := .ok none
  amdBlob := [0]
  armBlob := [0]
  localRead := .error []
  xzDec := fun _ => .error (str "failed to decompress xz")
  gzEnc := fun _ => .ok []
  xzExec := .error (str "xz: not found")
  gzExec := .ok []
  plainExec := .ok []

/-- An environment where all three installation strategies fail (for the
C6 witness). -/
def bundleEnvAllFail : BundleEnv where
  versionRead := .ok none
  archRead := .ok none
  amdBlob := [0]
  armBlob := [0]
  localRead := .error []
  xzDec := fun _ => .ok [1]
  gzEnc := fun _ => .ok [2]
  xzExec := .error (str "xz: not found")
  gzExec := .error (str "gzip: not found")
  plainExec := .error (str "cat: not found")

/-- Kubernetes pod condition, as deserialized in `src/kubectl.rs`
lines 109-114. The field `typeName` is the JSON field `type` (Rust field
`type_name`). -/
structure PodCondition where
  typeName : Str
  status : Str
deriving DecidableEq, Repr

/-- Kubernetes pod status (`src/kubectl.rs` lines 101-107). -/
structure PodStatus where
  phase : Option Str
  conditions : Option (List PodCondition)
deriving DecidableEq, Repr

/-- Pod metadata carrying the name (`src/kubectl.rs` lines 96-99). -/
structure PodMetadataName where
  name : Str
deriving DecidableEq, Repr

/-- Entry of a pod list (`src/kubectl.rs` lines 89-94). -/
structure PodListItem where
  metadata : PodMetadataName
  status : Option PodStatus
deriving DecidableEq, Repr

/-- Embedding of `is_ready` (`src/kubectl.rs` lines 436-452). -/
def is_ready (pod : PodListItem) : Bool :=
  if ((pod.status.bind fun s => s.phase).map fun p => p == str "Running") ≠ some true then
    false
  else
    match pod.status.bind fun s => s.conditions with
    | some conds => conds.any fun c => c.typeName == str "Ready" && c.status == str "True"
    | none => false

/-- Embedding of `is_running` (`src/kubectl.rs` lines 454-460). -/
def is_running (pod : PodListItem) : Bool :=
  ((pod.status.bind fun s => s.phase).map fun p => p == str "Running").getD false

/-- Error message of `select_pod` for an empty pod list. -/
def noPodsMsg (kind selector nsStr : Str) : Str :=
  str "no pods found for " ++ kind ++ str " selector `" ++ selector
    ++ str "` in namespace " ++ nsStr

/-- Error message of `select_pod` for the unreachable no-candidate case. -/
def noSuitableMsg (kind selector nsStr : Str) : Str :=
  str "no suitable pods found for " ++ kind ++ str " selector `" ++ selector
    ++ str "` in namespace " ++ nsStr

/-- Embedding of `select_pod` (`src/kubectl.rs` lines 358-400), given
the parsed pod list: first Ready, else first Running, else the first of
the list; error on an empty list.  The kubectl invocation and JSON
parsing around the ranking are I/O and stay outside the model. -/
def select_pod (kind selector nsStr : Str) (items : List PodListItem) : Except Str Str :=
  if items.isEmpty then .error (noPodsMsg kind selector nsStr)
  else
    match (match items.find? is_ready with
           | some p => some p
           | none =>
             match items.find? is_running with
             | some p => some p
             | none => items.head?) with
    | some p => .ok p.metadata.name
    | none => .error (noSuitableMsg kind selector nsStr)

/-- Specification-side readiness, following the claim's words: the phase
is `Running` and some condition has type `Ready` with status `True`. -/
def readySpec (pod : PodListItem) : Prop :=
  (pod.status.bind fun s => s.phase) = some (str "Running") ∧
  ∃ c ∈ ((pod.status.bind fun s => s.conditions).getD []),
    c.typeName = str "Ready" ∧ c.status = str "True"

/-- Specification-side running check: the phase is `Running`. -/
def runningSpec (pod : PodListItem) : Prop :=
  (pod.status.bind fun s => s.phase) = some (str "Running")

instance (pod : PodListItem) : Decidable (readySpec pod) := by
  unfold readySpec; infer_instance

instance (pod : PodListItem) : Decidable (runningSpec pod) := by
  unfold runningSpec; infer_instance

/-- Specification-side pod selection, following the claim's words: the
first Ready pod, else the first Running pod, else the first pod in list
order, and a no-pods-found error for the empty list. -/
def selectPodSpec (kind selector nsStr : Str) (items : List PodListItem) : Except Str Str :=
  match items with
  | [] => .error (noPodsMsg kind selector nsStr)
  | first :: _ =>
    match items.find? fun p => decide (readySpec p) with
    | some p => .ok p.metadata.name
    | none =>
      match items.find? fun p => decide (runningSpec p) with
      | some p => .ok p.metadata.name
      | none => .ok first.metadata.name

/-- Embedding of the authorized_keys fragment of `START_SSHD_SCRIPT`
(`src/remote.rs` lines 93-99): create the file if missing, append the
public-key line iff no existing line matches it verbatim
(`grep -qxF ... || printf ... >>`).  The file is `none` when missing,
otherwise its list of lines. -/
def ensureAuthKeys (pk : Str) (file : Option (List Str)) : List Str :=
  let ls := file.getD []
  if pk ∈ ls then ls else ls ++ [pk]

/-- The authorized_keys file after `n` successful invocations of the
bootstrap script with public-key line `pk`, starting from a missing
file. -/
def iterAuthKeys (pk : Str) : Nat → Option (List Str)
  | 0 => none
  | n + 1 => some (ensureAuthKeys pk (iterAuthKeys pk n))

/-- Number of lines of the file equal to `pk`. -/
def countLine (pk : Str) (ls : List Str) : Nat :=
  (ls.filter fun l => l == pk).length

/-- Child-process output as captured by the exec helpers in
`src/kubectl.rs`: exit status, stdout and stderr. -/
structure Output where
  success : Bool
  stdout : Str
  stderr : Str

/-- Embedding of `exec_capture` (`src/kubectl.rs` lines 549-564). -/
def exec_capture (o : Output) : Except Str Str :=
  if o.success then .ok (trimWs o.stdout)
  else .error (str "kubectl exec failed: " ++ trimWs o.stderr)

/-- Embedding of `exec_capture_optional` (`src/kubectl.rs` lines
566-580). -/
def exec_capture_optional (o : Output) : Option Str :=
  if o.success then some (trimWs o.stdout) else none

/-- Embedding of `exec_with_input` (`src/kubectl.rs` lines 582-625), as
a function of the child output and the optional stdin-write error. -/
def exec_with_input (o : Output) (inputErr : Option Str) : Except Str Str :=
  if o.success = false then
    match inputErr with
    | some ie =>
      .error (str "kubectl exec failed (stdin error: " ++ ie ++ str "): " ++ trimWs o.stderr)
    | none => .error (str "kubectl exec failed: " ++ trimWs o.stderr)
  else
    match inputErr with
    | some ie => .error (str "kubectl exec stdin error: " ++ ie)
    | none => .ok (trimWs o.stdout)

/-- Model of Rust's `"2222".parse::<u16>()`: an optional leading `+`,
then at least one digit, value below 2^16. -/
def parseU16 (s : Str) : Option Nat :=
  let digits := match s with
    | '+' :: rest => rest
    | _ => s
  if digits = [] then none
  else if digits.all (fun c => c.isDigit) then
    let v := digits.foldl (fun acc c => acc * 10 + (c.toNat - '0'.toNat)) 0
    if v < 65536 then some v else none
  else none

/-- Embedding of `ensure_sshd_running` (`src/remote.rs` lines 48-74), as
a function of the `exec_with_input` result of running the bootstrap
script: parse the trimmed output as a 16-bit port. -/
def ensure_sshd_running (base : Str) (execResult : Except Str Str) : Except Str Nat :=
  match execResult with
  | .error e => .error (chainErr (str "failed to start sshd under " ++ base) e)
  | .ok output =>
    match parseU16 (trimWs output) with
    | some p => .ok p
    | none => .error (str "unexpected sshd port output: " ++ output)

/-! String-machinery lemmas. -/

theorem stripPre_append (p t : Str) : stripPre p (p ++ t) = some t := by
  induction p with
  | nil => rfl
  | cons a ps ih => simp [stripPre, ih]

theorem stripSuf_append (sfx a : Str) : stripSuf sfx (a ++ sfx) = some a := by
  unfold stripSuf
  rw [List.reverse_append, stripPre_append]
  simp

theorem trimEndDots_sshpod (a : Str) :
    trimEndDots (a ++ sshpodSuf) = a ++ sshpodSuf := by
  unfold trimEndDots
  rw [List.reverse_append]
  have h1 : sshpodSuf.reverse = ['d', 'o', 'p', 'h', 's', 's', '.'] := rfl
  rw [h1, List.cons_append, List.dropWhile_cons]
  simp only [decide_eq_true_eq]
  rw [if_neg (by decide)]
  rw [← List.cons_append, ← h1, ← List.reverse_append, List.reverse_reverse]

theorem splitDot_no_dot (s : Str) (h : ∀ ch ∈ s, ch ≠ '.') : splitDot s = [s] := by
  induction s with
  | nil => rfl
  | cons ch rest ih =>
    have hch : ch ≠ '.' := h ch (by simp)
    have hrest : splitDot rest = [rest] := ih (fun x hx => h x (by simp [hx]))
    simp [splitDot, hch, hrest]

theorem splitDot_append_dot (x r : Str) (h : ∀ ch ∈ x, ch ≠ '.') :
    splitDot (x ++ '.' :: r) = x :: splitDot r := by
  induction x with
  | nil => simp [splitDot]
  | cons ch xs ih =>
    have hch : ch ≠ '.' := h ch (by simp)
    have ih2 : splitDot (xs ++ '.' :: r) = xs :: splitDot r :=
      ih (fun a ha => h a (by simp [ha]))
    simp [splitDot, hch, ih2]

theorem splitDot_three (t1 t2 t3 : Str)
    (h1 : ∀ ch ∈ t1, ch ≠ '.') (h2 : ∀ ch ∈ t2, ch ≠ '.') (h3 : ∀ ch ∈ t3, ch ≠ '.') :
    splitDot (t1 ++ '.' :: (t2 ++ '.' :: t3)) = [t1, t2, t3] := by
  rw [splitDot_append_dot _ _ h1, splitDot_append_dot _ _ h2, splitDot_no_dot _ h3]

theorem noDot_append {xs ys : Str} (h1 : ∀ ch ∈ xs, ch ≠ '.') (h2 : ∀ ch ∈ ys, ch ≠ '.') :
    ∀ ch ∈ xs ++ ys, ch ≠ '.' := by
  intro ch hch
  rcases List.mem_append.mp hch with h | h
  · exact h1 ch h
  · exact h2 ch h

theorem trimWs_append_ws (s : Str) (c : Char) (hc : isWsChar c = true) :
    trimWs (s ++ [c]) = trimWs s := by
  unfold trimWs
  rw [List.reverse_append]
  have h1 : ([c] : Str).reverse = [c] := rfl
  rw [h1, List.cons_append, List.nil_append, List.dropWhile_cons, if_pos hc]

/-! Hostname-parser lemmas. -/

theorem parseTokens_canonical (p n c : Str) (hp : p ≠ []) (hn : n ≠ []) (hc : c ≠ []) :
    parseTokens [podPre ++ p, namespacePre ++ n, contextPre ++ c] =
      .ok ⟨.Pod p, some n, c, none⟩ := by
  have e1 : stripPre containerPre (podPre ++ p) = none := rfl
  have e2 : stripPre namespacePre (namespacePre ++ n) = some n := rfl
  have e3 : stripPre contextPre (contextPre ++ c) = some c := rfl
  have e4 : stripPre podPre (podPre ++ p) = some p := rfl
  have e5 : podPre ++ p ≠ [] := by simp [podPre]
  simp [parseTokens, parseAfterTarget, parseFinish, parseTarget, List.get?,
    e1, e2, e3, e4, e5, hp, hn, hc]

theorem parseTokens_swapped (p n c : Str) :
    parseTokens [podPre ++ p, contextPre ++ c, namespacePre ++ n] =
      .error .InvalidFormat := by
  have e1 : stripPre containerPre (podPre ++ p) = none := rfl
  have e2 : stripPre namespacePre (contextPre ++ c) = none := rfl
  simp [parseTokens, parseAfterTarget, parseFinish, List.get?, e1, e2]

/-! Pod-selection lemmas. -/

theorem find?_congr {α : Type _} {p q : α → Bool} (h : ∀ a, p a = q a) :
    ∀ l : List α, l.find? p = l.find? q := by
  intro l
  induction l with
  | nil => rfl
  | cons a as ih => simp [List.find?_cons, h a, ih]

theorem is_ready_iff (pod : PodListItem) : is_ready pod = true ↔ readySpec pod := by
  unfold is_ready readySpec
  cases hs : pod.status with
  | none => simp
  | some s =>
    cases hp : s.phase with
    | none => simp [hp]
    | some ph =>
      cases hc : s.conditions with
      | none => by_cases hrun : ph = str "Running" <;> simp [hp, hc, hrun]
      | some conds =>
        by_cases hrun : ph = str "Running" <;>
          simp [hp, hc, hrun, List.any_eq_true]

theorem is_running_iff (pod : PodListItem) : is_running pod = true ↔ runningSpec pod := by
  unfold is_running runningSpec
  cases hs : pod.status with
  | none => simp
  | some s =>
    cases hp : s.phase with
    | none => simp [hp]
    | some ph => simp [hp]

/-! authorized_keys lemmas. -/

theorem countLine_pos_mem {pk : Str} {L : List Str} (h : countLine pk L ≠ 0) :
    pk ∈ L := by
  induction L with
  | nil => simp [countLine] at h
  | cons a as ih =>
    by_cases ha : (a == pk) = true
    · have : a = pk := beq_iff_eq.mp ha
      subst this
      exact List.mem_cons_self a as
    · have h2 : countLine pk as ≠ 0 := by
        simpa [countLine, List.filter_cons, ha] using h
      exact List.mem_cons_of_mem a (ih h2)

theorem countLine_iter_one (pk : Str) (n : Nat) :
    countLine pk ((iterAuthKeys pk (n + 1)).getD []) = 1 := by
  induction n with
  | zero => simp [iterAuthKeys, ensureAuthKeys, countLine]
  | succ m ih =>
    have hm : pk ∈ (iterAuthKeys pk (m + 1)).getD [] :=
      countLine_pos_mem (by rw [ih]; exact one_ne_zero)
    have hstep : iterAuthKeys pk (m + 2) =
        some (ensureAuthKeys pk (iterAuthKeys pk (m + 1))) := rfl
    have h2 : ensureAuthKeys pk (iterAuthKeys pk (m + 1)) =
        (iterAuthKeys pk (m + 1)).getD [] := by
      unfold ensureAuthKeys
      simp [hm]
    rw [hstep, Option.getD_some, h2, ih]

/-! Claim theorems. -/

/-- C1 counterexample: when the initial TCP connection to the forwarded
port fails, `run` returns the connect error without ever invoking
`stop()` on the port-forward handle (the handle is merely dropped). -/
theorem bridge_stop_connect_fail_cex :
    (bridgeAfterForward
      { connect := .error (str "connection refused"), pump := .ok (), stop := .ok () }).stopCalled
      = false := rfl

/-- C1 amended: once the port-forward has started, `stop()` is invoked
before the pipeline returns on every exit path on which the initial TCP
connection succeeds — both when the pump succeeds and when it fails, with
the pump error surfaced first — but on a connect failure the pipeline
returns without invoking `stop()`. -/
theorem bridge_stop_after_connect :
    (∀ p s : Except Str Unit,
      (bridgeAfterForward { connect := .ok (), pump := p, stop := s }).stopCalled = true) ∧
    (∀ p s : Except Str Unit, ∀ e : Str,
      (bridgeAfterForward { connect := .error e, pump := p, stop := s }).stopCalled = false) ∧
    (∀ s : Except Str Unit, ∀ e : Str,
      (bridgeAfterForward { connect := .ok (), pump := .error e, stop := s }).result = .error e) := by
  refine ⟨fun p s => ?_, fun p s e => rfl, fun s e => rfl⟩
  cases p <;> rfl

/-- C2 counterexample: `pod--app.namespace--ns.context--ctx.sshpod` is a
valid hostname, yet permuting its non-target tokens (swapping the
`namespace--` and `context--` tokens) makes the parser fail with
`InvalidFormat` instead of yielding the same `HostSpec`. -/
theorem hostspec_token_order_cex :
    parse (str "pod--app.namespace--ns.context--ctx.sshpod") =
      .ok ⟨.Pod (str "app"), some (str "ns"), str "ctx", none⟩ ∧
    parse (str "pod--app.context--ctx.namespace--ns.sshpod") =
      .error .InvalidFormat := by
  exact ⟨by decide, by decide⟩

/-- C2 amended: the parser is positional, not order-insensitive. For all
non-empty dot-free names, the canonical order
`pod--P.namespace--N.context--C.sshpod` parses to the expected `HostSpec`,
while swapping the two non-target tokens (`namespace--` and `context--`)
is rejected with `InvalidFormat` rather than parsed to the same
`HostSpec`. -/
theorem hostspec_positional (p n c : Str) (hp : p ≠ []) (hn : n ≠ []) (hc : c ≠ [])
    (hpd : ∀ ch ∈ p, ch ≠ '.') (hnd : ∀ ch ∈ n, ch ≠ '.') (hcd : ∀ ch ∈ c, ch ≠ '.') :
    parse (canonicalHost p n c) = .ok ⟨.Pod p, some n, c, none⟩ ∧
    parse (swappedHost p n c) = .error .InvalidFormat := by
  have hpodd : ∀ ch ∈ podPre ++ p, ch ≠ '.' := noDot_append (by decide) hpd
  have hnsd : ∀ ch ∈ namespacePre ++ n, ch ≠ '.' := noDot_append (by decide) hnd
  have hctxd : ∀ ch ∈ contextPre ++ c, ch ≠ '.' := noDot_append (by decide) hcd
  constructor
  · show parse (canonicalHost p n c) = _
    unfold canonicalHost
    rw [parse, trimEndDots_sshpod, stripSuf_append]
    dsimp only
    rw [splitDot_three _ _ _ hpodd hnsd hctxd]
    exact parseTokens_canonical p n c hp hn hc
  · show parse (swappedHost p n c) = _
    unfold swappedHost
    rw [parse, trimEndDots_sshpod, stripSuf_append]
    dsimp only
    rw [splitDot_three _ _ _ hpodd hctxd hnsd]
    exact parseTokens_swapped p n c

/-- C2 amended, witness at concrete names. -/
theorem hostspec_positional_witness :
    parse (canonicalHost (str "db") (str "prod") (str "stag")) =
      .ok ⟨.Pod (str "db"), some (str "prod"), str "stag", none⟩ ∧
    parse (swappedHost (str "db") (str "prod") (str "stag")) =
      .error .InvalidFormat :=
  hostspec_positional (str "db") (str "prod") (str "stag")
    (by decide) (by decide) (by decide) (by decide) (by decide) (by decide)

/-- C3 counterexample: `namespace--ns.context--ctx.sshpod` has no target
token, yet the parser accepts it, interpreting the `namespace--ns` token
as a bare pod name, instead of failing with `InvalidFormat` as claimed. -/
theorem hostspec_missing_target_cex :
    parse (str "namespace--ns.context--ctx.sshpod") =
      .ok ⟨.Pod (str "namespace--ns"), none, str "ctx", none⟩ ∧
    parse (str "namespace--ns.context--ctx.sshpod") ≠
      .error .InvalidFormat := by
  exact ⟨by decide, by decide⟩

/-- C3 amended: with the `.sshpod` suffix present, empty values attached
to the recognised prefixes in their expected positions are rejected with
`InvalidFormat`, as are token sequences that do not fit the positional
grammar; but hostnames lacking a target token, with duplicate keys, or
with unrecognised tokens are not rejected as such — whatever token stands
in the target position is accepted as a bare pod name. -/
theorem hostspec_invalid_values :
    parse (str "container--.pod--a.context--c.sshpod") = .error .InvalidFormat ∧
    parse (str "pod--.context--c.sshpod") = .error .InvalidFormat ∧
    parse (str "deployment--.context--c.sshpod") = .error .InvalidFormat ∧
    parse (str "job--.context--c.sshpod") = .error .InvalidFormat ∧
    parse (str "pod--a.namespace--.context--c.sshpod") = .error .InvalidFormat ∧
    parse (str "pod--a.context--.sshpod") = .error .InvalidFormat ∧
    parse (str "pod--a.namespace--n.context--c.extra.sshpod") = .error .InvalidFormat ∧
    parse (str "namespace--ns.context--ctx.sshpod") =
      .ok ⟨.Pod (str "namespace--ns"), none, str "ctx", none⟩ ∧
    parse (str "container--x.container--y.context--ctx.sshpod") =
      .ok ⟨.Pod (str "container--y"), none, str "ctx", some (str "x")⟩ ∧
    parse (str "someapp.context--ctx.sshpod") =
      .ok ⟨.Pod (str "someapp"), none, str "ctx", none⟩ := by
  refine ⟨by decide, by decide, by decide, by decide, by decide,
    by decide, by decide, by decide, by decide, by decide⟩

/-- C4: `select_pod` picks the first pod Ready in the claim's sense
(phase `Running` and a condition whose type is `Ready` with status
`True`), else the first Running pod, else the first pod in list order,
and fails with the no-pods-found error on an empty list;
`is_ready`/`is_running` agree with the claim's readiness definitions. -/
theorem select_pod_spec :
    (∀ pod, is_ready pod = true ↔ readySpec pod) ∧
    (∀ pod, is_running pod = true ↔ runningSpec pod) ∧
    (∀ kind selector nsStr items,
      select_pod kind selector nsStr items = selectPodSpec kind selector nsStr items) := by
  refine ⟨is_ready_iff, is_running_iff, fun kind selector nsStr items => ?_⟩
  have hready : ∀ p, is_ready p = (fun p => decide (readySpec p)) p := by
    intro p
    by_cases hr : readySpec p
    · simp [hr, (is_ready_iff p).mpr hr]
    · cases hb : is_ready p with
      | true => exact absurd ((is_ready_iff p).mp hb) hr
      | false => simp [hr]
  have hrunning : ∀ p, is_running p = (fun p => decide (runningSpec p)) p := by
    intro p
    by_cases hr : runningSpec p
    · simp [hr, (is_running_iff p).mpr hr]
    · cases hb : is_running p with
      | true => exact absurd ((is_running_iff p).mp hb) hr
      | false => simp [hr]
  cases items with
  | nil => rfl
  | cons first rest =>
    unfold select_pod selectPodSpec
    rw [find?_congr hready, find?_congr hrunning]
    simp only [List.isEmpty_cons, if_neg]
    cases (first :: rest).find? fun p => decide (readySpec p) with
    | some p => rfl
    | none =>
      cases (first :: rest).find? fun p => decide (runningSpec p) with
      | some p => rfl
      | none => rfl

/-- C5: when both speculative reads succeed and return exactly the
bundle version and the detected architecture, `ensure_bundle` returns
success with a trace containing only the two `cat` reads: no
`exec_with_input` invocation and no local bundle-file read. -/
theorem ensure_bundle_fast_path (env : BundleEnv) (ver base arch : Str)
    (hv : env.versionRead = .ok (some ver)) (ha : env.archRead = .ok (some arch)) :
    ensure_bundle env ver base arch = (.ok (), [.catVersion, .catArch]) := by
  simp [ensure_bundle, hv, ha]

/-- C5 witness. -/
theorem ensure_bundle_fast_path_witness :
    bundleEnvFast.versionRead = .ok (some (str "0.1.0+sshd1")) ∧
    bundleEnvFast.archRead = .ok (some (str "linux/amd64")) ∧
    ensure_bundle bundleEnvFast (str "0.1.0+sshd1") (str "/tmp/sshpod/u/c") (str "linux/amd64") =
      (.ok (), [.catVersion, .catArch]) :=
  ⟨rfl, rfl,
    ensure_bundle_fast_path bundleEnvFast (str "0.1.0+sshd1") (str "/tmp/sshpod/u/c")
      (str "linux/amd64") rfl rfl⟩

/-- C6 counterexample: when the xz strategy fails and the local xz
decompression of the payload then fails, `ensure_bundle` fails even
though the gzip and plain strategies were never attempted (and would
have succeeded), and its error chains only the local decompression
failure — contradicting "if and only if all three fail does
ensure_bundle fail". -/
theorem ensure_bundle_ladder_cex :
    ensure_bundle bundleEnvBadXz (str "0.1.0+sshd1") (str "/tmp/sshpod/u/c") (str "linux/amd64") =
      (.error (chainErr (str "failed to decompress sshd xz locally")
        (str "failed to decompress xz")),
       [.catVersion, .catArch, .execXz]) ∧
    bundleEnvBadXz.gzExec = .ok [] ∧
    bundleEnvBadXz.plainExec = .ok [] := by
  exact ⟨by decide, rfl, rfl⟩

/-- C6 amended: when installation is needed, provided the payload is
sourced successfully and the local xz-decompression and
gzip-recompression steps succeed, `ensure_bundle` tries at most three
`exec_with_input` strategies in the order xz, gzip, plain, stopping at
the first success; it fails exactly when all three fail, and then its
error message chains all three underlying errors.  (When a local step
fails, `ensure_bundle` fails without attempting the remaining
strategies.) -/
theorem ensure_bundle_ladder (env : BundleEnv) (ver base arch : Str)
    (vr ar : Option Str) (data sshdData gzData : Bytes)
    (hv : env.versionRead = .ok vr) (ha : env.archRead = .ok ar)
    (hmis : ¬(vr = some ver ∧ ar = some arch))
    (hget : get_bundle env arch = some data)
    (hdec : env.xzDec data = .ok sshdData)
    (hgz : env.gzEnc sshdData = .ok gzData) :
    ensure_bundle env ver base arch =
      match env.xzExec with
      | .ok _ => (.ok (), [.catVersion, .catArch, .execXz])
      | .error e1 =>
        match env.gzExec with
        | .ok _ => (.ok (), [.catVersion, .catArch, .execXz, .execGz])
        | .error e2 =>
          match env.plainExec with
          | .ok _ => (.ok (), [.catVersion, .catArch, .execXz, .execGz, .execPlain])
          | .error e3 =>
            (.error (installFailMsg base e1 e2 e3),
             [.catVersion, .catArch, .execXz, .execGz, .execPlain]) := by
  cases hx : env.xzExec with
  | ok s => simp [ensure_bundle, hv, ha, hmis, hget, hx]
  | error e1 =>
    cases hg : env.gzExec with
    | ok s => simp [ensure_bundle, hv, ha, hmis, hget, hx, hdec, hgz, hg]
    | error e2 =>
      cases hp : env.plainExec with
      | ok s => simp [ensure_bundle, hv, ha, hmis, hget, hx, hdec, hgz, hg, hp]
      | error e3 => simp [ensure_bundle, hv, ha, hmis, hget, hx, hdec, hgz, hg, hp]

/-- C6 amended, witness: with all three strategies failing, the trace
shows the xz, gzip and plain attempts in order and the final error
chains all three messages. -/
theorem ensure_bundle_ladder_witness :
    ensure_bundle bundleEnvAllFail (str "0.1.0+sshd1") (str "/base") (str "linux/arm64") =
      (.error (installFailMsg (str "/base") (str "xz: not found") (str "gzip: not found")
        (str "cat: not found")),
       [.catVersion, .catArch, .execXz, .execGz, .execPlain]) :=
  ensure_bundle_ladder bundleEnvAllFail (str "0.1.0+sshd1") (str "/base") (str "linux/arm64")
    none none [0] [1] [2] rfl rfl (by decide) (by decide) rfl rfl

/-- C7: `uname -m` values trimming to `x86_64`/`amd64` map to
`linux/amd64`, `aarch64`/`arm64` map to `linux/arm64`, and every other
value fails with the unsupported-architecture error. -/
theorem detect_arch_spec :
    (∀ m : Str, trimWs m = str "x86_64" ∨ trimWs m = str "amd64" →
      detect_remote_arch (.ok m) = .ok (str "linux/amd64")) ∧
    (∀ m : Str, trimWs m = str "aarch64" ∨ trimWs m = str "arm64" →
      detect_remote_arch (.ok m) = .ok (str "linux/arm64")) ∧
    (∀ m : Str, trimWs m ≠ str "x86_64" → trimWs m ≠ str "amd64" →
      trimWs m ≠ str "aarch64" → trimWs m ≠ str "arm64" →
      detect_remote_arch (.ok m) = .error (str "unsupported remote architecture: " ++ trimWs m)) := by
  refine ⟨fun m hm => ?_, fun m hm => ?_, fun m h1 h2 h3 h4 => ?_⟩
  · simp only [detect_remote_arch, if_pos hm]
  · have hne : ¬(trimWs m = str "x86_64" ∨ trimWs m = str "amd64") := by
      rcases hm with h | h <;> rw [h] <;> decide
    simp only [detect_remote_arch, if_neg hne, if_pos hm]
  · have ha : ¬(trimWs m = str "x86_64" ∨ trimWs m = str "amd64") := by
      rintro (h | h)
      · exact h1 h
      · exact h2 h
    have hb : ¬(trimWs m = str "aarch64" ∨ trimWs m = str "arm64") := by
      rintro (h | h)
      · exact h3 h
      · exact h4 h
    simp only [detect_remote_arch, if_neg ha, if_neg hb]

/-- C7 witness: each accepted value maps correctly, and an unsupported
value is rejected. -/
theorem detect_arch_spec_witness :
    detect_remote_arch (.ok (str "x86_64")) = .ok (str "linux/amd64") ∧
    detect_remote_arch (.ok (str "amd64")) = .ok (str "linux/amd64") ∧
    detect_remote_arch (.ok (str "aarch64")) = .ok (str "linux/arm64") ∧
    detect_remote_arch (.ok (str "arm64")) = .ok (str "linux/arm64") ∧
    detect_remote_arch (.ok (str "riscv64")) =
      .error (str "unsupported remote architecture: " ++ trimWs (str "riscv64")) :=
  ⟨detect_arch_spec.1 (str "x86_64") (Or.inl (by decide)),
   detect_arch_spec.1 (str "amd64") (Or.inr (by decide)),
   detect_arch_spec.2.1 (str "aarch64") (Or.inl (by decide)),
   detect_arch_spec.2.1 (str "arm64") (Or.inr (by decide)),
   detect_arch_spec.2.2 (str "riscv64") (by decide) (by decide) (by decide) (by decide)⟩

/-- C8: the bootstrap script appends the public-key line only when it is
not already present verbatim and never removes existing lines, so after
any number of successful invocations with the same line, starting from a
missing file, `authorized_keys` contains exactly one occurrence of it. -/
theorem authorized_keys_once :
    (∀ pk ls, pk ∈ ls → ensureAuthKeys pk (some ls) = ls) ∧
    (∀ pk ls, pk ∉ ls → ensureAuthKeys pk (some ls) = ls ++ [pk]) ∧
    (∀ pk file, ∃ t, ensureAuthKeys pk file = (file.getD []) ++ t) ∧
    (∀ pk n, n ≠ 0 → countLine pk ((iterAuthKeys pk n).getD []) = 1) := by
  refine ⟨fun pk ls h => by simp [ensureAuthKeys, h],
    fun pk ls h => by simp [ensureAuthKeys, h],
    fun pk file => ?_, fun pk n hn => ?_⟩
  · by_cases h : pk ∈ file.getD []
    · exact ⟨[], by simp [ensureAuthKeys, h]⟩
    · exact ⟨[pk], by simp [ensureAuthKeys, h]⟩
  · cases n with
    | zero => exact absurd rfl hn
    | succ m => exact countLine_iter_one pk m

/-- C8 witness: a concrete run — an already-present line is not
duplicated, a fresh line is appended at the end, and the key is present
exactly once after three invocations from a missing file. -/
theorem authorized_keys_once_witness :
    ensureAuthKeys (str "ssh-ed25519 AAAA me") (some [str "ssh-ed25519 AAAA me"]) =
      [str "ssh-ed25519 AAAA me"] ∧
    ensureAuthKeys (str "ssh-ed25519 AAAA me") (some [str "other"]) =
      [str "other"] ++ [str "ssh-ed25519 AAAA me"] ∧
    countLine (str "ssh-ed25519 AAAA me")
      ((iterAuthKeys (str "ssh-ed25519 AAAA me") 3).getD []) = 1 :=
  ⟨authorized_keys_once.1 _ _ (by decide),
   authorized_keys_once.2.1 _ _ (by decide),
   authorized_keys_once.2.2.2 _ 3 (by decide)⟩

/-- C9: appending a trailing dot to any hostname does not change the
parser's outcome, because `parse` first trims all trailing dots. -/
theorem parse_trailing_dot (h : Str) : parse (h ++ ['.']) = parse h := by
  have ht : trimEndDots (h ++ ['.']) = trimEndDots h := by
    unfold trimEndDots
    rw [List.reverse_append]
    have h1 : (['.'] : Str).reverse = ['.'] := rfl
    rw [h1, List.cons_append, List.nil_append, List.dropWhile_cons]
    rw [if_pos (by decide)]
  simp only [parse, ht]

/-- C10: every remote-exec capture helper returns the subprocess stdout
trimmed of leading and trailing whitespace, and consequently the
speculative VERSION/ARCH reads and the bootstrap-script port output are
insensitive to a trailing newline in the remote output. -/
theorem exec_trim_spec :
    (∀ o : Output, o.success = true → exec_capture o = .ok (trimWs o.stdout)) ∧
    (∀ o : Output, o.success = true → exec_capture_optional o = some (trimWs o.stdout)) ∧
    (∀ o : Output, o.success = true → exec_with_input o none = .ok (trimWs o.stdout)) ∧
    (∀ s : Str, trimWs (s ++ str "\n") = trimWs s) ∧
    (∀ raw se : Str, exec_capture_optional ⟨true, raw ++ str "\n", se⟩ =
      exec_capture_optional ⟨true, raw, se⟩) ∧
    (∀ raw se base : Str,
      ensure_sshd_running base (exec_with_input ⟨true, raw ++ str "\n", se⟩ none) =
      ensure_sshd_running base (exec_with_input ⟨true, raw, se⟩ none)) := by
  have hnl : ∀ s : Str, trimWs (s ++ str "\n") = trimWs s := fun s =>
    trimWs_append_ws s '\n' (by decide)
  refine ⟨fun o h => by simp [exec_capture, h],
    fun o h => by simp [exec_capture_optional, h],
    fun o h => by simp [exec_with_input, h],
    hnl,
    fun raw se => by simp [exec_capture_optional, hnl],
    fun raw se base => by simp [exec_with_input, hnl]⟩

/-- C10 witness: trimming observed on concrete outputs carrying a
trailing newline. -/
theorem exec_trim_spec_witness :
    exec_capture ⟨true, str "x86_64\n", []⟩ = .ok (trimWs (str "x86_64\n")) ∧
    exec_capture_optional ⟨true, str "0.1.0+sshd1\n", []⟩ =
      some (trimWs (str "0.1.0+sshd1\n")) ∧
    exec_with_input ⟨true, str "2222\n", []⟩ none = .ok (trimWs (str "2222\n")) ∧
    trimWs (str "2222\n") = str "2222" :=
  ⟨exec_trim_spec.1 _ rfl, exec_trim_spec.2.1 _ rfl, exec_trim_spec.2.2.1 _ rfl,
   by decide⟩

end Sshpod
